import Mathlib

/-!
Verification of the onrampr/appapi authentication and authorization core.

The JavaScript source is embedded shallowly:

* JavaScript single-character `String.split` and the decimal parses it feeds are
  re-implemented over `String.data` so that every definition evaluates inside
  the kernel.
* `jsonwebtoken` tokens are structured values `RawToken`: a well-formed token
  carries its header algorithm, its payload `{id, email, exp}` and an HMAC
  signature modelled as a natural number computed by `hmacSign`; every byte
  string that does not decode to such a token is the `malformed` constructor.
* The MySQL tables touched by the routes (`users`, `mobile_sessions`,
  `user_activity_logs`, `mobile_activity_logs`, `wallet_transactions`,
  `bridge_transactions`) are lists of typed rows inside a `DB` record, and each
  SQL statement used by the embedded routes becomes a pure `DB` function.
* Route handlers and middlewares become pure functions from their inputs
  (headers, body fields, current time, signing key, database state) to a
  result value and, where they write, an updated `DB`.
-/

namespace AppApi

/-! ## JavaScript string primitives -/

/-- JavaScript `s.split(sep)` for a single-character separator, on the
character list of a string.  `''.split(' ')` is `['']` and separators at the
ends produce empty fields, exactly as in JavaScript. -/
def splitChar (sep : Char) : List Char → List (List Char)
  | [] => [[]]
  | c :: cs =>
    let r := splitChar sep cs
    if c = sep then [] :: r
    else
      match r with
      | [] => [[c]]
      | w :: ws => (c :: w) :: ws

/-- JavaScript `s.split(sep)` for a single-character separator. -/
def jsSplit (s : String) (sep : Char) : List String :=
  (splitChar sep s.data).map String.mk

/-- Decimal value of one character, if it is a digit. -/
def digitVal? (c : Char) : Option Nat :=
  if '0' ≤ c ∧ c ≤ '9' then some (c.toNat - '0'.toNat) else none

/-- Accumulating decimal parse of a character list; `none` on any non-digit. -/
def digitsToNat? : List Char → Option Nat → Option Nat
  | [], acc => acc
  | c :: cs, acc =>
    match digitVal? c, acc with
    | some d, some n => digitsToNat? cs (some (n * 10 + d))
    | some d, none => digitsToNat? cs (some d)
    | none, _ => none

/-- Decimal parse of a string; `none` on the empty string or any non-digit. -/
def strToNat? (s : String) : Option Nat :=
  match s.data with
  | [] => none
  | l => digitsToNat? l none

/-! ## Token model (`jsonwebtoken` over the `JWT_SECRET` HMAC key) -/

/-- JWT payload as signed by the routes: `jwt.sign({ id, email }, secret,
{ expiresIn })` embeds the subject id, the email claim and an expiry epoch. -/
structure Payload where
  id : Nat
  email : String
  exp : Nat
deriving DecidableEq

/-- A cheap kernel-computable code of a string, used inside `hmacSign` so that
the modelled signature depends on every payload field. -/
def strCode (s : String) : Nat :=
  s.data.foldl (fun a c => a * 131 + c.toNat) 7

/-- Model of the HMAC-SHA256 signature over (key, payload).  Only two facts
about the real MAC are used by the development: it is a function of the key
and the payload, and a value different from `hmacSign key p` is an invalid
signature for `p` under `key`. -/
def hmacSign (key : Nat) (p : Payload) : Nat :=
  key * 1009 + p.id * 97 + p.exp * 31 + strCode p.email

/-- A token as `jwt.verify` sees it: either a byte string that fails JWS
decoding (`malformed` — corrupt payload, wrong segment count, bad base64), or
a decoded (header algorithm, payload, signature) triple. -/
inductive RawToken where
  | malformed : RawToken
  | tok (alg : String) (payload : Payload) (sig : Nat) : RawToken
deriving DecidableEq

/-- The HMAC algorithms `jsonwebtoken` accepts for a string secret; the
routes sign with the default HS256. -/
def allowedAlg (a : String) : Bool :=
  a == "HS256" || a == "HS384" || a == "HS512"

/-- `jwt.sign(payload, secret)`: an HS256 token signed with the key. -/
def jwtSign (key : Nat) (p : Payload) : RawToken :=
  .tok "HS256" p (hmacSign key p)

/-- The two rejection classes of `jwt.verify` that the middlewares
distinguish: `JsonWebTokenError` (malformed token, unsupported algorithm or
signature mismatch) and `TokenExpiredError`. -/
inductive VerifyError where
  | JsonWebTokenError : VerifyError
  | TokenExpiredError : VerifyError
deriving DecidableEq

/-- `jwt.verify(token, secret)` in the order the library checks: JWS decoding
and the signature (including the algorithm) first, the `exp` claim second —
expiry is only reached once the signature is authentic. -/
def jwtVerify (key now : Nat) : RawToken → Except VerifyError Payload
  | .malformed => .error .JsonWebTokenError
  | .tok alg p sig =>
    if ¬allowedAlg alg then .error .JsonWebTokenError
    else if sig ≠ hmacSign key p then .error .JsonWebTokenError
    else if p.exp ≤ now then .error .TokenExpiredError
    else .ok p

/-- Decoding of the wire form of a token.  The development serialises tokens
as `alg|id|email|exp|sig`; anything that does not parse is `malformed`. -/
def decodeToken (s : String) : RawToken :=
  match jsSplit s '|' with
  | [alg, idS, emailS, expS, sigS] =>
    match strToNat? idS, strToNat? expS, strToNat? sigS with
    | some i, some e, some g => .tok alg ⟨i, emailS, e⟩ g
    | _, _, _ => .malformed
  | _ => .malformed

/-- `const token = authHeader && authHeader.split(' ')[1]` followed by
`if (!token)`: the extracted bearer token, with every JavaScript-falsy
outcome (missing header, empty header, no second word) collapsed to `none`. -/
def tokenOf (authHeader : Option String) : Option String :=
  match authHeader with
  | none => none
  | some h =>
    if h = "" then none
    else
      match (jsSplit h ' ').get? 1 with
      | none => none
      | some "" => none
      | some t => some t

/-! ## Database model -/

/-- A row of the `users` table, restricted to the columns the embedded
routes read or write. -/
structure UserRow where
  id : Nat
  first_name : String
  last_name : String
  email : String
  password : String
  is_verified : Bool
  kyc_status : String
  tos_status : String
  bridge_customer_id : Option String
  created_at : Nat
  last_mobile_login : Option Nat
deriving DecidableEq

/-- A row of `mobile_sessions`.  `token_hash` is opaque: the source stores
`jwt.sign(token, secret)` there and never reads the column back. -/
structure SessionRow where
  user_id : Nat
  device_id : String
  token_hash : Nat
  expires_at : Nat
  last_accessed : Nat
deriving DecidableEq

/-- An activity-log row (`user_activity_logs` / `mobile_activity_logs`),
restricted to the columns the claims need. -/
structure ActivityRow where
  user_id : Nat
  action : String
deriving DecidableEq

/-- A transaction row (`wallet_transactions` / `bridge_transactions`),
restricted to its owner column. -/
structure TxRow where
  user_id : Nat
deriving DecidableEq

/-- The mutable database state shared by all requests. -/
structure DB where
  users : List UserRow
  mobile_sessions : List SessionRow
  user_activity_logs : List ActivityRow
  mobile_activity_logs : List ActivityRow
  wallet_transactions : List TxRow
  bridge_transactions : List TxRow
deriving DecidableEq

/-- `SELECT ... FROM users WHERE id = ?` followed by `rows[0]`. -/
def findUserById (db : DB) (i : Nat) : Option UserRow :=
  db.users.find? (fun u => u.id == i)

/-- `SELECT ... FROM users WHERE email = ?` followed by `rows[0]`. -/
def findUserByEmail (db : DB) (e : String) : Option UserRow :=
  db.users.find? (fun u => u.email == e)

/-- `SELECT id FROM mobile_sessions WHERE user_id = ? AND device_id = ? AND
expires_at > NOW()` has at least one row. -/
def hasValidSession (db : DB) (uid : Nat) (d : String) (now : Nat) : Bool :=
  db.mobile_sessions.any (fun s => s.user_id == uid && s.device_id == d && now < s.expires_at)

/-- `UPDATE mobile_sessions SET last_accessed = NOW() WHERE user_id = ? AND
device_id = ?`. -/
def touchSessions (db : DB) (uid : Nat) (d : String) (now : Nat) : DB :=
  { db with
    mobile_sessions := db.mobile_sessions.map (fun s =>
      if s.user_id == uid && s.device_id == d then { s with last_accessed := now } else s) }

/-- `UPDATE users SET last_mobile_login = NOW() WHERE id = ?`. -/
def setLastMobileLogin (db : DB) (uid : Nat) (now : Nat) : DB :=
  { db with
    users := db.users.map (fun u =>
      if u.id == uid then { u with last_mobile_login := some now } else u) }

/-- Number of `mobile_sessions` rows for one (user id, device id) pair. -/
def sessionCountFor (db : DB) (uid : Nat) (d : String) : Nat :=
  (db.mobile_sessions.filter (fun s => s.user_id == uid && s.device_id == d)).length

/-! ## Middleware results and the authentication middlewares
(src/middleware/auth.js, embedded from src/unnamed/part_001) -/

/-- An HTTP response as the middlewares produce it:
`res.status(status).json({ success, message })`. -/
structure Response where
  status : Nat
  success : Bool
  message : String
deriving DecidableEq

/-- `req.user` as attached by the authentication middlewares: the row the
`users` query returned, never data from the token payload. -/
structure AttachedUser where
  id : Nat
  email : String
  first_name : String
  last_name : String
  is_verified : Bool
  kyc_status : String
  tos_status : String
  bridge_customer_id : Option String
deriving DecidableEq

/-- Build `req.user` from the selected `users` columns. -/
def attachUser (u : UserRow) : AttachedUser :=
  ⟨u.id, u.email, u.first_name, u.last_name, u.is_verified, u.kyc_status, u.tos_status,
    u.bridge_customer_id⟩

/-- Outcome of a middleware: either it ended the request with a response, or
it called `next()` with `req.user` set to a row or to `null`. -/
inductive MWResult where
  | response (r : Response) : MWResult
  | next (user : Option AttachedUser) : MWResult
deriving DecidableEq

/-- Whether a middleware passed control on. -/
def MWResult.isNext : MWResult → Bool
  | .response _ => false
  | .next _ => true

/-- `authenticateToken` (src/middleware/auth.js): extract the bearer token,
`jwt.verify` it, re-read the user row by the token subject id, and attach the
freshly read row; `JsonWebTokenError` answers 403, `TokenExpiredError` 401,
an unknown subject 401. -/
def authenticateToken (key now : Nat) (db : DB) (authHeader : Option String) : MWResult :=
  match tokenOf authHeader with
  | none => .response ⟨401, false, "Access token required"⟩
  | some s =>
    match jwtVerify key now (decodeToken s) with
    | .error .JsonWebTokenError => .response ⟨403, false, "Invalid token"⟩
    | .error .TokenExpiredError => .response ⟨401, false, "Token expired"⟩
    | .ok p =>
      match findUserById db p.id with
      | none => .response ⟨401, false, "User not found"⟩
      | some u => .next (some (attachUser u))

/-- `const deviceId = req.headers['x-device-id']` with JavaScript truthiness:
an empty header value behaves like an absent one. -/
def deviceIdOf (h : Option String) : Option String :=
  match h with
  | none => none
  | some "" => none
  | some d => some d

/-- `authenticateMobileSession` (src/middleware/auth.js): like
`authenticateToken`, but when a device id header is present it first requires
a non-expired `mobile_sessions` row for (token subject, device id) — 401
`Invalid or expired session` otherwise — and touches `last_accessed` after
attaching the user.  Returns the middleware outcome and the database state. -/
def authenticateMobileSession (key now : Nat) (db : DB) (authHeader xDeviceId : Option String) :
    MWResult × DB :=
  match tokenOf authHeader with
  | none => (.response ⟨401, false, "Access token required"⟩, db)
  | some s =>
    match jwtVerify key now (decodeToken s) with
    | .error .JsonWebTokenError => (.response ⟨403, false, "Invalid token"⟩, db)
    | .error .TokenExpiredError => (.response ⟨401, false, "Token expired"⟩, db)
    | .ok p =>
      match deviceIdOf xDeviceId with
      | some d =>
        if hasValidSession db p.id d now then
          match findUserById db p.id with
          | none => (.response ⟨401, false, "User not found"⟩, db)
          | some u => (.next (some (attachUser u)), touchSessions db p.id d now)
        else (.response ⟨401, false, "Invalid or expired session"⟩, db)
      | none =>
        match findUserById db p.id with
        | none => (.response ⟨401, false, "User not found"⟩, db)
        | some u => (.next (some (attachUser u)), db)

/-- `requireVerified`: `if (!req.user || !req.user.is_verified)` answer 403,
else `next()`. -/
def requireVerified (user : Option AttachedUser) : MWResult :=
  match user with
  | none => .response ⟨403, false, "Email verification required"⟩
  | some u =>
    if !u.is_verified then .response ⟨403, false, "Email verification required"⟩
    else .next (some u)

/-- `requireKYC`: `if (!req.user || req.user.kyc_status !== 'active')`. -/
def requireKYC (user : Option AttachedUser) : MWResult :=
  match user with
  | none => .response ⟨403, false, "KYC verification required"⟩
  | some u =>
    if u.kyc_status != "active" then .response ⟨403, false, "KYC verification required"⟩
    else .next (some u)

/-- `requireTOS`: `if (!req.user || req.user.tos_status !== 'approved')`. -/
def requireTOS (user : Option AttachedUser) : MWResult :=
  match user with
  | none => .response ⟨403, false, "Terms of service acceptance required"⟩
  | some u =>
    if u.tos_status != "approved" then
      .response ⟨403, false, "Terms of service acceptance required"⟩
    else .next (some u)

/-- `requireBridgeCustomer`: `if (!req.user || !req.user.bridge_customer_id)`
— `null` and the empty string are both falsy. -/
def requireBridgeCustomer (user : Option AttachedUser) : MWResult :=
  match user with
  | none => .response ⟨403, false, "Bridge customer setup required"⟩
  | some u =>
    match u.bridge_customer_id with
    | none => .response ⟨403, false, "Bridge customer setup required"⟩
    | some "" => .response ⟨403, false, "Bridge customer setup required"⟩
    | some _ => .next (some u)

/-- `optionalAuth` (src/middleware/auth.js): never ends the request; attaches
the freshly read user row when the token verifies and the subject exists, and
`null` in every other case (missing token, any verification error, unknown
subject), then calls `next()`. -/
def optionalAuth (key now : Nat) (db : DB) (authHeader : Option String) : MWResult :=
  match tokenOf authHeader with
  | none => .next none
  | some s =>
    match jwtVerify key now (decodeToken s) with
    | .error _ => .next none
    | .ok p => .next ((findUserById db p.id).map attachUser)

/-! ## Credential lifecycle routes (src/routes/auth.js) -/

/-- Modelled from the spec: the bcrypt Password Hasher is an external
capability (`hash(raw) -> hash`, `verify(raw, hash) -> bool`), not
reimplemented in this repository.  Only functionality — a hash matches
exactly the password it was produced from — is used by the development. -/
def bcryptHash (raw : String) : String :=
  "$2b$12$" ++ raw

/-- `bcrypt.compare(raw, storedHash)`. -/
def bcryptCompare (raw stored : String) : Bool :=
  stored == bcryptHash raw

/-- The public projection of a user returned by `POST /login`
(and `POST /register`). -/
structure PublicUser where
  id : Nat
  firstName : String
  lastName : String
  email : String
  isVerified : Bool
  kycStatus : String
  tosStatus : String
  bridgeCustomerId : Option String
  createdAt : Nat
deriving DecidableEq

/-- Build the public projection from a `users` row. -/
def publicOf (u : UserRow) : PublicUser :=
  ⟨u.id, u.first_name, u.last_name, u.email, u.is_verified, u.kyc_status, u.tos_status,
    u.bridge_customer_id, u.created_at⟩

/-- Outcome of the login route: a failure or error response, or a token
together with the public projection.  The `success` constructor mirrors the
route's `res.json` success body; in the live route it is unreachable (see
`login`), and is kept because the branch exists in the source. -/
inductive LoginOutcome where
  | failure (r : Response) : LoginOutcome
  | success (token : RawToken) (user : PublicUser) : LoginOutcome
deriving DecidableEq

/-- The response of the global error handler
(src/middleware/errorHandler.js) for a database-driver error forwarded by a
route's `next(error)`: status 500 with `success: false`.  The `message`
field echoes `err.message` (a driver string, or the production default
`Internal Server Error`); the development fixes the production default, and
no theorem relies on the message text, only on the 500 status and the
resulting state. -/
def dbErrorResponse : Response := ⟨500, false, "Internal Server Error"⟩

/-- `POST /login` (src/routes/auth.js) after input validation: look the user
up by email; answer 401 `Invalid email or password` both when no row exists
and when `bcrypt.compare` fails.  With correct credentials the route signs a
7-day token and runs `UPDATE users SET last_mobile_login = NOW()`, but the
next statement — `INSERT INTO mobile_sessions (user_id, device_id,
token_hash, expires_at) VALUES (?, ?, ?, DATE_ADD(NOW(), INTERVAL 7 DAY))`
at lines 152–156 — binds four values
(`[user.id, deviceId || 'unknown', tokenHash, new Date(...)]`) to its three
placeholders, and `pool.execute` rejects the prepared-statement execution
with a parameter-count mismatch.  The route's catch forwards the error, so
every correct-credential login answers 500 after the `last_mobile_login`
update, writes no `mobile_sessions` row and no `mobile_activity_logs` row,
and never reaches its success response. -/
def login (key now : Nat) (db : DB) (email password : String) (deviceId : Option String) :
    LoginOutcome × DB :=
  match findUserByEmail db email with
  | none => (.failure ⟨401, false, "Invalid email or password"⟩, db)
  | some u =>
    if !bcryptCompare password u.password then
      (.failure ⟨401, false, "Invalid email or password"⟩, db)
    else
      (.failure dbErrorResponse, setLastMobileLogin db u.id now)

/-- The user payload of `GET /api/auth/exists/:email` when a row matches. -/
structure ExistsUser where
  id : Nat
  email : String
  firstName : String
  lastName : String
deriving DecidableEq

/-- The JSON body of `GET /api/auth/exists/:email`. -/
structure ExistsResponse where
  status : Nat
  success : Bool
  userExists : Bool
  user : Option ExistsUser
deriving DecidableEq

/-- `GET /api/auth/exists/:email` (src/routes/auth.js): registered on the
router with no authentication middleware; answers `exists: false` when no
user has the email, and `exists: true` with the row's id, email, first name
and last name when one does. -/
def existsHandler (db : DB) (email : String) : ExistsResponse :=
  match findUserByEmail db email with
  | none => ⟨200, true, false, none⟩
  | some u => ⟨200, true, true, some (⟨u.id, u.email, u.first_name, u.last_name⟩ : ExistsUser)⟩

/-- The response of `POST /forgot-password` (src/routes/auth.js): both the
no-such-user branch and the user-found branch answer 200 with the same
`If the email exists, a password reset link has been sent` body (the
user-found branch additionally stores a reset code, not modelled here, before
sending the identical response). -/
def forgotPasswordResponse (db : DB) (email : String) : Response :=
  match findUserByEmail db email with
  | none => ⟨200, true, "If the email exists, a password reset link has been sent"⟩
  | some _ => ⟨200, true, "If the email exists, a password reset link has been sent"⟩

/-! ## Account deletion (`DELETE /account`, second document of
src/config/database.js) -/

/-- The statements of the account-deletion block, in route order:
`START TRANSACTION`, `DELETE FROM user_activity_logs`, `DELETE FROM
wallet_transactions`, `DELETE FROM bridge_transactions`, `DELETE FROM
users`, `COMMIT`. -/
inductive DelStmt where
  | startTransaction : DelStmt
  | delActivityLogs : DelStmt
  | delWalletTx : DelStmt
  | delBridgeTx : DelStmt
  | delUsers : DelStmt
  | commit : DelStmt
deriving DecidableEq

/-- Whether MySQL's prepared-statement (binary) protocol can prepare the
statement.  The `query` helper (src/config/database.js lines 58–70) runs
every statement through `pool.execute`, i.e. through this protocol, and the
server refuses to prepare `START TRANSACTION` (ER_UNSUPPORTED_PS), so that
call throws; the DELETEs and COMMIT are preparable. -/
def preparable : DelStmt → Bool
  | .startTransaction => false
  | _ => true

/-- Effect of one executed statement of the deletion block on the database,
including the foreign-key cascades the integration schema in
src/server-final.js declares: every dependent table references
`users(id) ON DELETE CASCADE`, so `DELETE FROM users` also removes the
user's `mobile_sessions` and `mobile_activity_logs` rows (and would cascade
`user_activity_logs`, `wallet_transactions` and `bridge_transactions` as
well, though the route deletes those explicitly first). -/
def applyDeleteStmt (uid : Nat) (db : DB) : DelStmt → DB
  | .delActivityLogs =>
    { db with user_activity_logs := db.user_activity_logs.filter (fun r => r.user_id ≠ uid) }
  | .delWalletTx =>
    { db with wallet_transactions := db.wallet_transactions.filter (fun r => r.user_id ≠ uid) }
  | .delBridgeTx =>
    { db with bridge_transactions := db.bridge_transactions.filter (fun r => r.user_id ≠ uid) }
  | .delUsers =>
    { db with
      users := db.users.filter (fun u => u.id ≠ uid),
      mobile_sessions := db.mobile_sessions.filter (fun s => s.user_id ≠ uid),
      mobile_activity_logs := db.mobile_activity_logs.filter (fun r => r.user_id ≠ uid),
      user_activity_logs := db.user_activity_logs.filter (fun r => r.user_id ≠ uid),
      wallet_transactions := db.wallet_transactions.filter (fun r => r.user_id ≠ uid),
      bridge_transactions := db.bridge_transactions.filter (fun r => r.user_id ≠ uid) }
  | _ => db

/-- Run the deletion block statement by statement.  Each statement goes
through the per-statement `query` helper; an unpreparable statement throws
there, and because the route issues `await query('START TRANSACTION')`
before entering its inner try/catch, that throw propagates directly to the
route's outer catch: no later statement runs and no ROLLBACK is attempted.
Returns the final database state and whether the block completed. -/
def runDelStmts (uid : Nat) : DB → List DelStmt → DB × Bool
  | db, [] => (db, true)
  | db, k :: ks =>
    if preparable k then runDelStmts uid (applyDeleteStmt uid db k) ks
    else (db, false)

/-- The deletion block of `DELETE /account` in statement order.  Its first
statement is the unpreparable `START TRANSACTION`, so the block always dies
there with the database untouched. -/
def deleteAccountRun (db : DB) (uid : Nat) : DB × Bool :=
  runDelStmts uid db
    [.startTransaction, .delActivityLogs, .delWalletTx, .delBridgeTx, .delUsers, .commit]

/-- `DELETE /account` (second document of src/config/database.js): require a
password confirmation, re-verify it against the stored hash, then run the
deletion block; a block failure reaches the route's catch, which forwards
the error to the global error handler. -/
def deleteAccountRoute (db : DB) (uid : Nat) (password : String) : Response × DB :=
  if password = "" then (⟨400, false, "Password confirmation is required"⟩, db)
  else
    match findUserById db uid with
    | none => (⟨404, false, "User not found"⟩, db)
    | some u =>
      if !bcryptCompare password u.password then
        (⟨401, false, "Password is incorrect"⟩, db)
      else
        match deleteAccountRun db uid with
        | (db2, true) => (⟨200, true, "Account deleted successfully"⟩, db2)
        | (db2, false) => (dbErrorResponse, db2)

/-- A store with one user (id 1, password `pw`) and no sessions, used by the
login witnesses. -/
def dbC5 : DB :=
  ⟨[⟨1, "F", "L", "a", bcryptHash "pw", true, "active", "approved", none, 0, none⟩],
    [], [], [], [], []⟩

/-- `dbC5` with an existing `mobile_sessions` row for (user 1, device
`dev`). -/
def dbC5s : DB :=
  ⟨[⟨1, "F", "L", "a", bcryptHash "pw", true, "active", "approved", none, 0, none⟩],
    [⟨1, "dev", 42, 999999, 10⟩], [], [], [], []⟩

/-- A store holding user 7 (password `pw`) together with one row in each
dependent table (a mobile session, a user activity log, a mobile activity
log, a wallet transaction and a bridge transaction). -/
def dbC4 : DB :=
  ⟨[⟨7, "F", "L", "e", bcryptHash "pw", true, "active", "approved", none, 0, none⟩],
    [⟨7, "dev", 0, 1000, 0⟩], [⟨7, "login"⟩], [⟨7, "mobile_login"⟩], [⟨7⟩], [⟨7⟩]⟩

/-! ## Process startup (src/unnamed/part_000) and token issuance -/

/-- The environment variables the startup sequence consults, plus whether the
database accepts a connection. -/
structure Env where
  jwtSecret : Option Nat
  port : Option Nat
  frontendUrl : Option String
  dbOk : Bool
deriving DecidableEq

/-- The configuration captured at startup. -/
structure AppConfig where
  port : Nat
  frontendUrl : String
deriving DecidableEq

/-- The startup sequence of src/unnamed/part_000 lines 15–22:
`dotenv.config()`, read `PORT` and `FRONTEND_URL` with defaults, then
`connectDB()` which exits the process when the database connection fails.
No other environment variable is validated at startup; in particular
`JWT_SECRET` is read only later, inside request handlers.  `none` means the
process exited during startup. -/
def startup (env : Env) : Option AppConfig :=
  if env.dbOk then some ⟨env.port.getD 3000, env.frontendUrl.getD "https://onrampr.co"⟩
  else none

/-- Modelled from the jsonwebtoken library (external dependency):
`jwt.sign(payload, secretOrPrivateKey)` throws
`secretOrPrivateKey must have a value` when the secret is missing, and
otherwise signs.  The routes call it with `process.env.JWT_SECRET`, read at
each call site (e.g. src/routes/auth.js lines 60–65); a throw propagates to
the error handler as a 500 and no token is produced. -/
def jwtSignOpt (secret : Option Nat) (p : Payload) : Except String RawToken :=
  match secret with
  | none => .error "secretOrPrivateKey must have a value"
  | some k => .ok (jwtSign k p)

/-- The token-issuance step of `POST /register` (src/routes/auth.js lines
60–65): sign `{ id, email }` with `JWT_SECRET` and a 7-day expiry. -/
def registerIssueToken (secret : Option Nat) (now : Nat) (u : UserRow) :
    Except String RawToken :=
  jwtSignOpt secret ⟨u.id, u.email, now + 7 * 24 * 60 * 60⟩

/-! ## Theorems -/

deriving instance DecidableEq for Except

/-- Flipping any single bit of a natural number changes it. -/
theorem xor_two_pow_ne (n i : Nat) : n ^^^ 2 ^ i ≠ n := by
  intro h
  have h2 : n ^^^ (n ^^^ 2 ^ i) = n ^^^ n := by rw [h]
  rw [← Nat.xor_assoc, Nat.xor_self, Nat.zero_xor] at h2
  have hp : 0 < 2 ^ i := Nat.pos_pow_of_pos i (by norm_num)
  omega

/-- C2: token verification distinguishes its two rejection reasons.  A
malformed token, an unsupported algorithm, or any signature mismatch —
including a single bit flipped in the signature of a genuinely signed token —
is `JsonWebTokenError`, which both middlewares answer with 403
`Invalid token`; an authentic HMAC whose embedded expiry has passed is
`TokenExpiredError`, answered with 401 `Token expired`; the two responses are
distinct, and a tampered token is never reported expired. -/
theorem tokenVerification_distinguishes_rejections
    (key now : Nat) (db : DB) (h dh : Option String) (s : String) :
    (jwtVerify key now .malformed = .error .JsonWebTokenError) ∧
    (∀ alg p sig, allowedAlg alg = false →
      jwtVerify key now (.tok alg p sig) = .error .JsonWebTokenError) ∧
    (∀ alg p sig, sig ≠ hmacSign key p →
      jwtVerify key now (.tok alg p sig) = .error .JsonWebTokenError) ∧
    (∀ alg p sig, allowedAlg alg = true → sig = hmacSign key p → p.exp ≤ now →
      jwtVerify key now (.tok alg p sig) = .error .TokenExpiredError) ∧
    (∀ p i, jwtVerify key now (.tok "HS256" p (hmacSign key p ^^^ 2 ^ i)) =
      .error .JsonWebTokenError) ∧
    (tokenOf h = some s → jwtVerify key now (decodeToken s) = .error .JsonWebTokenError →
      authenticateToken key now db h = .response ⟨403, false, "Invalid token"⟩ ∧
      (authenticateMobileSession key now db h dh).1 = .response ⟨403, false, "Invalid token"⟩) ∧
    (tokenOf h = some s → jwtVerify key now (decodeToken s) = .error .TokenExpiredError →
      authenticateToken key now db h = .response ⟨401, false, "Token expired"⟩ ∧
      (authenticateMobileSession key now db h dh).1 = .response ⟨401, false, "Token expired"⟩) ∧
    ((⟨403, false, "Invalid token"⟩ : Response) ≠ ⟨401, false, "Token expired"⟩) := by
  refine ⟨rfl, ?_, ?_, ?_, ?_, ?_, ?_, by decide⟩
  · intro alg p sig hA
    simp [jwtVerify, hA]
  · intro alg p sig hs
    by_cases hA : allowedAlg alg <;> simp [jwtVerify, hA, hs]
  · intro alg p sig hA hs he
    simp [jwtVerify, hA, hs, he]
  · intro p i
    have hne := xor_two_pow_ne (hmacSign key p) i
    simp [jwtVerify, allowedAlg, hne]
  · intro ht hv
    constructor
    · simp [authenticateToken, ht, hv]
    · simp [authenticateMobileSession, ht, hv]
  · intro ht hv
    constructor
    · simp [authenticateToken, ht, hv]
    · simp [authenticateMobileSession, ht, hv]

/-- Witness for C2 at concrete inputs: with key 5 the payload
`{id 1, email "a", exp 100}` signs to 9256; flipping bit 3 of that signature
is rejected as `JsonWebTokenError`; a wrong-signature wire token answers 403
`Invalid token` even at a time past its expiry, and the authentic wire token
presented after its expiry answers 401 `Token expired`. -/
theorem tokenVerification_distinguishes_rejections_witness :
    jwtVerify 5 200 (.tok "HS256" ⟨1, "a", 100⟩ (hmacSign 5 ⟨1, "a", 100⟩ ^^^ 2 ^ 3)) =
      .error .JsonWebTokenError ∧
    authenticateToken 5 200 ⟨[], [], [], [], [], []⟩ (some "Bearer HS256|1|a|100|1") =
      .response ⟨403, false, "Invalid token"⟩ ∧
    authenticateToken 5 200 ⟨[], [], [], [], [], []⟩ (some "Bearer HS256|1|a|100|9256") =
      .response ⟨401, false, "Token expired"⟩ := by
  have t1 := tokenVerification_distinguishes_rejections 5 200 ⟨[], [], [], [], [], []⟩
    (some "Bearer HS256|1|a|100|1") none "HS256|1|a|100|1"
  have t2 := tokenVerification_distinguishes_rejections 5 200 ⟨[], [], [], [], [], []⟩
    (some "Bearer HS256|1|a|100|9256") none "HS256|1|a|100|9256"
  exact ⟨t1.2.2.2.2.1 ⟨1, "a", 100⟩ 3,
    (t1.2.2.2.2.2.1 (by decide) (by decide)).1,
    (t2.2.2.2.2.2.2.1 (by decide) (by decide)).1⟩

/-- C1: for every authenticated request whose bearer token verifies, the
account state attached for authorization is the row freshly read from the
`users` table by the token's subject id — if no such row exists the
middleware answers 401 `User not found`, and the outcome depends only on the
subject id, never on the other token claims. -/
theorem authenticateToken_fresh_state
    (key now : Nat) (db : DB) (h : Option String) (s alg : String)
    (p : Payload) (sig : Nat)
    (ht : tokenOf h = some s) (hd : decodeToken s = .tok alg p sig)
    (hv : jwtVerify key now (.tok alg p sig) = .ok p) :
    (findUserById db p.id = none →
      authenticateToken key now db h = .response ⟨401, false, "User not found"⟩) ∧
    (∀ u, findUserById db p.id = some u →
      authenticateToken key now db h = .next (some (attachUser u))) ∧
    (∀ h2 s2 alg2 p2 sig2, tokenOf h2 = some s2 → decodeToken s2 = .tok alg2 p2 sig2 →
      jwtVerify key now (.tok alg2 p2 sig2) = .ok p2 → p2.id = p.id →
      authenticateToken key now db h2 = authenticateToken key now db h) := by
  refine ⟨?_, ?_, ?_⟩
  · intro hu
    simp [authenticateToken, ht, hd, hv, hu]
  · intro u hu
    simp [authenticateToken, ht, hd, hv, hu]
  · intro h2 s2 alg2 p2 sig2 ht2 hd2 hv2 hid
    simp [authenticateToken, ht, hd, hv, ht2, hd2, hv2, hid]

/-- Witness for C1: with key 5 at time 50, the wire token
`HS256|1|a|100|9256` is authentic and unexpired; against a store holding user
1 the middleware attaches exactly the stored row, and against an empty store
(user deleted after issuance) the same token answers 401 `User not found`. -/
theorem authenticateToken_fresh_state_witness :
    authenticateToken 5 50
      ⟨[⟨1, "F", "L", "z", "$2b$12$pw", true, "active", "approved", some "bc", 0, none⟩],
        [], [], [], [], []⟩
      (some "Bearer HS256|1|a|100|9256") =
      .next (some ⟨1, "z", "F", "L", true, "active", "approved", some "bc"⟩) ∧
    authenticateToken 5 50 ⟨[], [], [], [], [], []⟩ (some "Bearer HS256|1|a|100|9256") =
      .response ⟨401, false, "User not found"⟩ := by
  constructor
  · exact (authenticateToken_fresh_state 5 50
      ⟨[⟨1, "F", "L", "z", "$2b$12$pw", true, "active", "approved", some "bc", 0, none⟩],
        [], [], [], [], []⟩
      (some "Bearer HS256|1|a|100|9256") "HS256|1|a|100|9256" "HS256" ⟨1, "a", 100⟩ 9256
      (by decide) (by decide) (by decide)).2.1
      ⟨1, "F", "L", "z", "$2b$12$pw", true, "active", "approved", some "bc", 0, none⟩
      (by decide)
  · exact (authenticateToken_fresh_state 5 50 ⟨[], [], [], [], [], []⟩
      (some "Bearer HS256|1|a|100|9256") "HS256|1|a|100|9256" "HS256" ⟨1, "a", 100⟩ 9256
      (by decide) (by decide) (by decide)).1 (by decide)

/-- C10: the optional-authentication middleware never ends the request: for
every authorization header value it calls `next()`, attaching the freshly
read user row when the token verifies and the subject exists, and `null` in
every other case (missing token, any verification error, unknown subject). -/
theorem optionalAuth_never_rejects (key now : Nat) (db : DB) (h : Option String) :
    (optionalAuth key now db h).isNext = true ∧
    (tokenOf h = none → optionalAuth key now db h = .next none) ∧
    (∀ s e, tokenOf h = some s → jwtVerify key now (decodeToken s) = .error e →
      optionalAuth key now db h = .next none) ∧
    (∀ s p, tokenOf h = some s → jwtVerify key now (decodeToken s) = .ok p →
      optionalAuth key now db h = .next ((findUserById db p.id).map attachUser)) := by
  refine ⟨?_, ?_, ?_, ?_⟩
  · cases ht : tokenOf h with
    | none => simp [optionalAuth, ht, MWResult.isNext]
    | some s =>
      cases hv : jwtVerify key now (decodeToken s) with
      | error e => simp [optionalAuth, ht, hv, MWResult.isNext]
      | ok p => simp [optionalAuth, ht, hv, MWResult.isNext]
  · intro ht
    simp [optionalAuth, ht]
  · intro s e ht hv
    simp [optionalAuth, ht, hv]
  · intro s p ht hv
    simp [optionalAuth, ht, hv]

/-- Witness for C10: a syntactically valid, authentic, unexpired token whose
subject is absent from an empty store still passes control on with a null
user. -/
theorem optionalAuth_never_rejects_witness :
    optionalAuth 5 50 ⟨[], [], [], [], [], []⟩ (some "Bearer HS256|1|a|100|9256") =
      .next none ∧
    optionalAuth 5 50 ⟨[], [], [], [], [], []⟩ none = .next none := by
  constructor
  · have t := (optionalAuth_never_rejects 5 50 ⟨[], [], [], [], [], []⟩
      (some "Bearer HS256|1|a|100|9256")).2.2.2 "HS256|1|a|100|9256" ⟨1, "a", 100⟩
      (by decide) (by decide)
    simpa using t
  · exact (optionalAuth_never_rejects 5 50 ⟨[], [], [], [], [], []⟩ none).2.1 (by decide)

/-- C6: in the session-binding variant, a request whose device identifier
header is absent (or empty, which JavaScript treats the same) is handled
exactly as by the plain middleware, with no database write; a request whose
device header is present succeeds only when a non-expired `mobile_sessions`
row exists for the (token subject, device id) pair, answering 401
`Invalid or expired session` when none does, and on success attaches the
fresh user row and touches `last_accessed` for the pair. -/
theorem authenticateMobileSession_session_binding
    (key now : Nat) (db : DB) (h dh : Option String) :
    (deviceIdOf dh = none →
      authenticateMobileSession key now db h dh = (authenticateToken key now db h, db)) ∧
    (∀ d s alg p sig, deviceIdOf dh = some d →
      tokenOf h = some s → decodeToken s = .tok alg p sig →
      jwtVerify key now (.tok alg p sig) = .ok p →
      (hasValidSession db p.id d now = false →
        (authenticateMobileSession key now db h dh).1 =
          .response ⟨401, false, "Invalid or expired session"⟩) ∧
      (hasValidSession db p.id d now = true →
        (findUserById db p.id = none →
          authenticateMobileSession key now db h dh =
            (.response ⟨401, false, "User not found"⟩, db)) ∧
        (∀ u, findUserById db p.id = some u →
          authenticateMobileSession key now db h dh =
            (.next (some (attachUser u)), touchSessions db p.id d now)))) ∧
    (∀ d u, deviceIdOf dh = some d →
      (authenticateMobileSession key now db h dh).1 = .next u →
      ∃ s alg p sig, tokenOf h = some s ∧ decodeToken s = .tok alg p sig ∧
        jwtVerify key now (.tok alg p sig) = .ok p ∧
        hasValidSession db p.id d now = true) := by
  refine ⟨?_, ?_, ?_⟩
  · intro hdev
    cases ht : tokenOf h with
    | none => simp [authenticateMobileSession, authenticateToken, ht]
    | some s =>
      cases hv : jwtVerify key now (decodeToken s) with
      | error e =>
        cases e <;> simp [authenticateMobileSession, authenticateToken, ht, hv]
      | ok p =>
        cases hu : findUserById db p.id <;>
          simp [authenticateMobileSession, authenticateToken, ht, hv, hdev, hu]
  · intro d s alg p sig hdev ht hd hv
    constructor
    · intro hns
      simp [authenticateMobileSession, ht, hd, hv, hdev, hns]
    · intro hs
      constructor
      · intro hu
        simp [authenticateMobileSession, ht, hd, hv, hdev, hs, hu]
      · intro u hu
        simp [authenticateMobileSession, ht, hd, hv, hdev, hs, hu]
  · intro d u hdev hnext
    cases ht : tokenOf h with
    | none => simp [authenticateMobileSession, ht] at hnext
    | some s =>
      cases hraw : decodeToken s with
      | malformed => simp [authenticateMobileSession, ht, hraw, jwtVerify] at hnext
      | tok alg2 p2 sig2 =>
        cases hv : jwtVerify key now (.tok alg2 p2 sig2) with
        | error e =>
          cases e <;> simp [authenticateMobileSession, ht, hraw, hv] at hnext
        | ok q =>
          have hq : q = p2 := by
            by_cases hA : allowedAlg alg2
            · by_cases hsg : sig2 = hmacSign key p2
              · by_cases he : p2.exp ≤ now
                · simp [jwtVerify, hA, hsg, he] at hv
                · simp [jwtVerify, hA, hsg, he] at hv
                  exact hv.symm
              · simp [jwtVerify, hA, hsg] at hv
            · simp [jwtVerify, hA] at hv
          subst hq
          cases hsv : hasValidSession db q.id d now with
          | false =>
            simp [authenticateMobileSession, ht, hraw, hv, hdev, hsv] at hnext
          | true =>
            exact ⟨s, alg2, q, sig2, rfl, hraw, hv, hsv⟩

/-- Witness for C6 at concrete inputs: with no device header the variant
agrees with the plain middleware; with device header `dev` and no session row
it answers 401 `Invalid or expired session`; with a matching non-expired row
it attaches the user and touches `last_accessed`. -/
theorem authenticateMobileSession_session_binding_witness :
    authenticateMobileSession 5 50
      ⟨[⟨1, "F", "L", "z", "$2b$12$pw", true, "active", "approved", some "bc", 0, none⟩],
        [], [], [], [], []⟩
      (some "Bearer HS256|1|a|100|9256") none =
      (authenticateToken 5 50
        ⟨[⟨1, "F", "L", "z", "$2b$12$pw", true, "active", "approved", some "bc", 0, none⟩],
          [], [], [], [], []⟩
        (some "Bearer HS256|1|a|100|9256"),
       ⟨[⟨1, "F", "L", "z", "$2b$12$pw", true, "active", "approved", some "bc", 0, none⟩],
        [], [], [], [], []⟩) ∧
    (authenticateMobileSession 5 50
      ⟨[⟨1, "F", "L", "z", "$2b$12$pw", true, "active", "approved", some "bc", 0, none⟩],
        [], [], [], [], []⟩
      (some "Bearer HS256|1|a|100|9256") (some "dev")).1 =
      .response ⟨401, false, "Invalid or expired session"⟩ ∧
    authenticateMobileSession 5 50
      ⟨[⟨1, "F", "L", "z", "$2b$12$pw", true, "active", "approved", some "bc", 0, none⟩],
        [⟨1, "dev", 0, 100, 0⟩], [], [], [], []⟩
      (some "Bearer HS256|1|a|100|9256") (some "dev") =
      (.next (some ⟨1, "z", "F", "L", true, "active", "approved", some "bc"⟩),
       ⟨[⟨1, "F", "L", "z", "$2b$12$pw", true, "active", "approved", some "bc", 0, none⟩],
        [⟨1, "dev", 0, 100, 50⟩], [], [], [], []⟩) := by
  refine ⟨?_, ?_, ?_⟩
  · exact (authenticateMobileSession_session_binding 5 50
      ⟨[⟨1, "F", "L", "z", "$2b$12$pw", true, "active", "approved", some "bc", 0, none⟩],
        [], [], [], [], []⟩
      (some "Bearer HS256|1|a|100|9256") none).1 (by decide)
  · exact ((authenticateMobileSession_session_binding 5 50
      ⟨[⟨1, "F", "L", "z", "$2b$12$pw", true, "active", "approved", some "bc", 0, none⟩],
        [], [], [], [], []⟩
      (some "Bearer HS256|1|a|100|9256") (some "dev")).2.1 "dev" "HS256|1|a|100|9256"
      "HS256" ⟨1, "a", 100⟩ 9256 (by decide) (by decide) (by decide) (by decide)).1
      (by decide)
  · have t := (((authenticateMobileSession_session_binding 5 50
      ⟨[⟨1, "F", "L", "z", "$2b$12$pw", true, "active", "approved", some "bc", 0, none⟩],
        [⟨1, "dev", 0, 100, 0⟩], [], [], [], []⟩
      (some "Bearer HS256|1|a|100|9256") (some "dev")).2.1 "dev" "HS256|1|a|100|9256"
      "HS256" ⟨1, "a", 100⟩ 9256 (by decide) (by decide) (by decide) (by decide)).2
      (by decide)).2
      ⟨1, "F", "L", "z", "$2b$12$pw", true, "active", "approved", some "bc", 0, none⟩
      (by decide)
    rw [t]
    decide

/-- C3: the login route answers the two failure causes — unknown email, and a
stored hash that does not verify against the supplied password — with the
identical `Invalid email or password` 401 response and no state change, so
the response does not distinguish them. -/
theorem login_uniform_invalid_credentials
    (key now : Nat) (db : DB) (email password : String) (deviceId : Option String) :
    (findUserByEmail db email = none →
      login key now db email password deviceId =
        (.failure ⟨401, false, "Invalid email or password"⟩, db)) ∧
    (∀ u, findUserByEmail db email = some u → bcryptCompare password u.password = false →
      login key now db email password deviceId =
        (.failure ⟨401, false, "Invalid email or password"⟩, db)) ∧
    (∀ db2 email2 password2 deviceId2 u,
      findUserByEmail db email = none →
      findUserByEmail db2 email2 = some u → bcryptCompare password2 u.password = false →
      (login key now db email password deviceId).1 =
        (login key now db2 email2 password2 deviceId2).1) := by
  refine ⟨?_, ?_, ?_⟩
  · intro hu
    simp [login, hu]
  · intro u hu hp
    simp [login, hu, hp]
  · intro db2 email2 password2 deviceId2 u h1 h2 hp
    simp [login, h1, h2, hp]

/-- Witness for C3: against a store holding one user with password `pw`, the
response to a login with an unknown email and the response to a login with
the right email but password `wrong` are the same value. -/
theorem login_uniform_invalid_credentials_witness :
    login 5 50
      ⟨[⟨1, "F", "L", "a", "$2b$12$pw", true, "active", "approved", none, 0, none⟩],
        [], [], [], [], []⟩
      "nobody" "pw" none =
      (.failure ⟨401, false, "Invalid email or password"⟩,
        ⟨[⟨1, "F", "L", "a", "$2b$12$pw", true, "active", "approved", none, 0, none⟩],
          [], [], [], [], []⟩) ∧
    login 5 50
      ⟨[⟨1, "F", "L", "a", "$2b$12$pw", true, "active", "approved", none, 0, none⟩],
        [], [], [], [], []⟩
      "a" "wrong" none =
      (.failure ⟨401, false, "Invalid email or password"⟩,
        ⟨[⟨1, "F", "L", "a", "$2b$12$pw", true, "active", "approved", none, 0, none⟩],
          [], [], [], [], []⟩) := by
  constructor
  · exact (login_uniform_invalid_credentials 5 50
      ⟨[⟨1, "F", "L", "a", "$2b$12$pw", true, "active", "approved", none, 0, none⟩],
        [], [], [], [], []⟩ "nobody" "pw" none).1 (by decide)
  · exact (login_uniform_invalid_credentials 5 50
      ⟨[⟨1, "F", "L", "a", "$2b$12$pw", true, "active", "approved", none, 0, none⟩],
        [], [], [], [], []⟩ "a" "wrong" none).2.1
      ⟨1, "F", "L", "a", "$2b$12$pw", true, "active", "approved", none, 0, none⟩
      (by decide) (by decide)

/-- C5 counterexample: with a `mobile_sessions` row already present for
(user 1, device `dev`), a subsequent login from `dev` with correct
credentials neither overwrites nor replaces that row: the login route's
session INSERT binds four values to its three placeholders, so the prepared
statement fails and the route answers 500, leaving the pair's single old row
unchanged (same token hash 42 and expiry) and adding none. -/
theorem login_does_not_replace_session :
    (login 5 50 dbC5s "a" "pw" (some "dev")).1 = .failure dbErrorResponse ∧
    (login 5 50 dbC5s "a" "pw" (some "dev")).2.mobile_sessions =
      [⟨1, "dev", 42, 999999, 10⟩] := by decide

/-- C5 amended: the login path never writes a session row at all.  With
correct credentials the route updates `last_mobile_login` and then dies at
the session INSERT (four bind values for three placeholders), answering 500;
`mobile_sessions` is left exactly as it was, so the per-pair row count is
unchanged by every login — no overwrite, no replacement and no insertion
occur, and the schema enforces no uniqueness on (user id, device id) (a
plain index only). -/
theorem login_never_writes_session
    (key now : Nat) (db : DB) (email password : String) (deviceId : Option String)
    (u : UserRow)
    (hu : findUserByEmail db email = some u)
    (hp : bcryptCompare password u.password = true) :
    login key now db email password deviceId =
      (.failure dbErrorResponse, setLastMobileLogin db u.id now) ∧
    (login key now db email password deviceId).2.mobile_sessions = db.mobile_sessions ∧
    (∀ d, sessionCountFor (login key now db email password deviceId).2 u.id d =
      sessionCountFor db u.id d) := by
  have hmain : login key now db email password deviceId =
      (.failure dbErrorResponse, setLastMobileLogin db u.id now) := by
    simp [login, hu, hp]
  refine ⟨hmain, ?_, ?_⟩
  · rw [hmain]
    simp [setLastMobileLogin]
  · intro d
    rw [hmain]
    simp [sessionCountFor, setLastMobileLogin]

/-- Witness for C5 amended: a correct-credential login from device `dev`
against `dbC5` answers 500 with `last_mobile_login` updated and
`mobile_sessions` unchanged. -/
theorem login_never_writes_session_witness :
    login 5 50 dbC5 "a" "pw" (some "dev") =
      (.failure dbErrorResponse, setLastMobileLogin dbC5 1 50) ∧
    (login 5 50 dbC5 "a" "pw" (some "dev")).2.mobile_sessions = dbC5.mobile_sessions := by
  have t := login_never_writes_session 5 50 dbC5 "a" "pw" (some "dev")
    ⟨1, "F", "L", "a", bcryptHash "pw", true, "active", "approved", none, 0, none⟩
    (by decide) (by decide)
  exact ⟨t.1, t.2.1⟩

/-- C4: account deletion is not an all-or-nothing cascade — it is entirely
inoperative.  The block's first statement, `START TRANSACTION`, is issued
through the prepared-statement-only `query` helper, which cannot prepare it,
and the call sits before the route's inner try/catch, so a `DELETE /account`
request with the correct password answers 500 with the database unchanged:
no dependent row and no user row is ever deleted, and no partial deletion
can arise because the block dies before its first DELETE.  The final two
conjuncts record that the modelled `DELETE FROM users` statement, were it
ever reached, would remove the user row and cascade the user's
`mobile_sessions` rows, as the schema's ON DELETE CASCADE dictates. -/
theorem deleteAccount_never_deletes :
    deleteAccountRoute dbC4 7 "pw" = (dbErrorResponse, dbC4) ∧
    deleteAccountRun dbC4 7 = (dbC4, false) ∧
    (applyDeleteStmt 7 dbC4 .delUsers).users = [] ∧
    (applyDeleteStmt 7 dbC4 .delUsers).mobile_sessions = [] := by decide

/-- C7 counterexample: with `JWT_SECRET` absent from the environment the
process still starts up normally (startup validates only the database
connection), so the system does not fail fast at startup; the same missing
key then makes the signing call of `POST /register` throw at request time. -/
theorem startup_succeeds_without_signing_key :
    (startup ⟨none, none, none, true⟩).isSome = true ∧
    startup ⟨none, none, none, true⟩ = some ⟨3000, "https://onrampr.co"⟩ ∧
    jwtSignOpt none ⟨1, "a", 100⟩ = .error "secretOrPrivateKey must have a value" := by
  decide

/-- C7 amended: the signing key is read from the environment at each call
site and never validated at startup — whether startup succeeds depends only
on database connectivity, not on the key — while no token is ever issued
unsigned or under a default key: with the key absent every issuance attempt
returns the library's `secretOrPrivateKey must have a value` error, and with
a key present issuance produces an HS256 token signed under exactly that
key. -/
theorem signing_key_read_per_request (env : Env) (p : Payload) (k now : Nat) (u : UserRow) :
    (startup env).isSome = env.dbOk ∧
    startup env = startup ⟨none, env.port, env.frontendUrl, env.dbOk⟩ ∧
    jwtSignOpt none p = .error "secretOrPrivateKey must have a value" ∧
    registerIssueToken none now u = .error "secretOrPrivateKey must have a value" ∧
    registerIssueToken (some k) now u =
      .ok (.tok "HS256" ⟨u.id, u.email, now + 7 * 24 * 60 * 60⟩
        (hmacSign k ⟨u.id, u.email, now + 7 * 24 * 60 * 60⟩)) := by
  refine ⟨?_, ?_, rfl, rfl, rfl⟩
  · cases hdb : env.dbOk <;> simp [startup, hdb]
  · cases hdb : env.dbOk <;> simp [startup, hdb]

/-- C8 counterexample: invoking a gate with no resolved identity attached is
answered with the gate's ordinary 403 rejection from the error taxonomy — for
`requireVerified` the very same response an unverified user receives — not
treated as a distinguished programming error. -/
theorem gates_null_state_ordinary_rejection :
    requireVerified none = .response ⟨403, false, "Email verification required"⟩ ∧
    requireVerified none =
      requireVerified (some ⟨1, "a", "F", "L", false, "pending", "unset", none⟩) ∧
    requireKYC none = .response ⟨403, false, "KYC verification required"⟩ ∧
    requireTOS none = .response ⟨403, false, "Terms of service acceptance required"⟩ ∧
    requireBridgeCustomer none = .response ⟨403, false, "Bridge customer setup required"⟩ := by
  decide

/-- C8 amended: each gate itself guards the null state and answers it with
its ordinary 403 rejection, identical to the response for a user failing that
gate's check; the gates stay independent — `requireKYC` rejects a
`kyc_status = pending` user whatever the other account fields are, and
`requireVerified` rejects an unverified user whatever the KYC status is. -/
theorem gates_null_state_rejects_like_failed_check
    (i : Nat) (e f l t : String) (v : Bool) (b : Option String) :
    requireVerified none = .response ⟨403, false, "Email verification required"⟩ ∧
    requireKYC none = .response ⟨403, false, "KYC verification required"⟩ ∧
    requireTOS none = .response ⟨403, false, "Terms of service acceptance required"⟩ ∧
    requireBridgeCustomer none = .response ⟨403, false, "Bridge customer setup required"⟩ ∧
    requireKYC (some ⟨i, e, f, l, v, "pending", t, b⟩) =
      .response ⟨403, false, "KYC verification required"⟩ ∧
    requireVerified (some ⟨i, e, f, l, false, "active", t, b⟩) =
      .response ⟨403, false, "Email verification required"⟩ := by
  exact ⟨rfl, rfl, rfl, rfl, rfl, rfl⟩

/-- C9: `GET /api/auth/exists/:email` is a user-existence oracle: it answers
`exists: false` when no user carries the email and `exists: true` together
with the holder's id, email, first name and last name when one does; the two
answers are distinguishable, in contrast to the forgot-password route, whose
response is one constant value whether or not the email is registered.  The
route is registered without any authentication middleware, which is why
`existsHandler` takes no credential input. -/
theorem existsEndpoint_reveals_registration
    (db db2 : DB) (email email2 : String) :
    (findUserByEmail db email = none → existsHandler db email = ⟨200, true, false, none⟩) ∧
    (∀ u, findUserByEmail db email = some u →
      existsHandler db email =
        ⟨200, true, true, some ⟨u.id, u.email, u.first_name, u.last_name⟩⟩) ∧
    (∀ u, findUserByEmail db email = none → findUserByEmail db2 email2 = some u →
      existsHandler db email ≠ existsHandler db2 email2) ∧
    forgotPasswordResponse db email =
      ⟨200, true, "If the email exists, a password reset link has been sent"⟩ := by
  refine ⟨?_, ?_, ?_, ?_⟩
  · intro hu
    simp [existsHandler, hu]
  · intro u hu
    simp [existsHandler, hu]
  · intro u h1 h2
    simp [existsHandler, h1, h2]
  · unfold forgotPasswordResponse
    cases findUserByEmail db email <;> rfl

/-- Witness for C9: with one registered user `a`, the endpoint answers
`exists: true` with id and names for `a` and `exists: false` for `nobody`,
while forgot-password answers the same body for both emails. -/
theorem existsEndpoint_reveals_registration_witness :
    existsHandler
      ⟨[⟨1, "F", "L", "a", "$2b$12$pw", true, "active", "approved", none, 0, none⟩],
        [], [], [], [], []⟩ "a" =
      ⟨200, true, true, some ⟨1, "a", "F", "L"⟩⟩ ∧
    existsHandler
      ⟨[⟨1, "F", "L", "a", "$2b$12$pw", true, "active", "approved", none, 0, none⟩],
        [], [], [], [], []⟩ "nobody" =
      ⟨200, true, false, none⟩ ∧
    forgotPasswordResponse
      ⟨[⟨1, "F", "L", "a", "$2b$12$pw", true, "active", "approved", none, 0, none⟩],
        [], [], [], [], []⟩ "a" =
      forgotPasswordResponse
        ⟨[⟨1, "F", "L", "a", "$2b$12$pw", true, "active", "approved", none, 0, none⟩],
          [], [], [], [], []⟩ "nobody" := by
  refine ⟨?_, ?_, ?_⟩
  · exact (existsEndpoint_reveals_registration
      ⟨[⟨1, "F", "L", "a", "$2b$12$pw", true, "active", "approved", none, 0, none⟩],
        [], [], [], [], []⟩
      ⟨[], [], [], [], [], []⟩ "a" "x").2.1
      ⟨1, "F", "L", "a", "$2b$12$pw", true, "active", "approved", none, 0, none⟩
      (by decide)
  · exact (existsEndpoint_reveals_registration
      ⟨[⟨1, "F", "L", "a", "$2b$12$pw", true, "active", "approved", none, 0, none⟩],
        [], [], [], [], []⟩
      ⟨[], [], [], [], [], []⟩ "nobody" "x").1 (by decide)
  · decide

end AppApi
